import Mathlib

/-!
Shallow embedding of the Pleo MCP server (src/server.py) and proofs about its
five tool handlers: list_expenses, get_expense, update_expense,
get_expense_receipts and get_expense_receipt.

JSON values returned by the upstream API are modelled by `JVal`; Python
exceptions raised inside a handler body are modelled by `PyErr`; each handler
is a pure function from its arguments, the configuration, and a network oracle
(mapping the one outgoing request to its outcome) to a pair of the handler
result (`Except.error` would mean an uncaught exception escaping the handler)
and the list of HTTP requests issued during the call.
-/

namespace PleoMcp

/-- A JSON value as decoded by `response.json()`; objects keep field order. -/
inductive JVal : Type where
  | null : JVal
  | bool : Bool → JVal
  | num : Int → JVal
  | str : String → JVal
  | arr : List JVal → JVal
  | obj : List (String × JVal) → JVal

/-- A Python exception relevant to the handlers: `httpx.HTTPStatusError`
(carrying the response status code and its `str(e)` text), `ValueError`
(raised by `get_client` when the API key is unset), and any other exception.
The carried string is `str(e)`. -/
inductive PyErr : Type where
  | httpStatusError (code : Nat) (msg : String) : PyErr
  | valueError (msg : String) : PyErr
  | otherError (msg : String) : PyErr
deriving DecidableEq

/-- An outbound HTTP request issued through `PleoAPIClient`: method, endpoint
relative to the base URL, and either the query parameters (GET) or the JSON
body (PUT). -/
inductive Request : Type where
  | get (endpoint : String) (params : List (String × JVal)) : Request
  | put (endpoint : String) (body : List (String × JVal)) : Request

/-- Module-level configuration: `PLEO_API_KEY = os.getenv("PLEO_API_KEY")`,
`none` when the environment variable is unset. -/
structure Config : Type where
  apiKey : Option String
deriving DecidableEq

def PLEO_API_BASE_URL : String := "https://openapi.pleo.io/v1"

/-- Python truthiness of the API key: `if not PLEO_API_KEY` is taken both when
the variable is unset (`None`) and when it is the empty string. -/
def keyTruthy : Option String → Bool
  | none => false
  | some s => !(s == "")

/-- Python truthiness of an `Optional[str]` tool argument (`if status:`). -/
def optTruthy : Option String → Bool
  | none => false
  | some s => !(s == "")

/-- Python truthiness of a JSON value (`if not expenses:` and friends). -/
def jtruthy : JVal → Bool
  | .null => false
  | .bool b => b
  | .num n => !(n == 0)
  | .str s => !(s == "")
  | .arr l => !l.isEmpty
  | .obj l => !l.isEmpty

mutual

/-- Python `repr` of a JSON value, used by `str` on non-string values. -/
def pyRepr : JVal → String
  | .null => "None"
  | .bool b => if b then "True" else "False"
  | .num n => toString n
  | .str s => "\x27" ++ s ++ "\x27"
  | .arr l => "[" ++ pyReprSeq l ++ "]"
  | .obj l => "\x7b" ++ pyReprObjSeq l ++ "\x7d"

/-- Comma-separated `repr`s of the elements of a list. -/
def pyReprSeq : List JVal → String
  | [] => ""
  | [x] => pyRepr x
  | x :: y :: xs => pyRepr x ++ ", " ++ pyReprSeq (y :: xs)

/-- Comma-separated `repr`s of the entries of a dict. -/
def pyReprObjSeq : List (String × JVal) → String
  | [] => ""
  | [(k, v)] => "\x27" ++ k ++ "\x27: " ++ pyRepr v
  | (k, v) :: e :: xs => "\x27" ++ k ++ "\x27: " ++ pyRepr v ++ ", " ++ pyReprObjSeq (e :: xs)

end

/-- Python `str` of a JSON value, as interpolated by the f-strings in the
renderers: a string is itself, everything else falls back to `repr`. -/
def pyStr : JVal → String
  | .str s => s
  | v => pyRepr v

/-- `d.get(key, default)` on a Python value: on a dict it returns the stored
value (even `None`) when the key is present and the default otherwise; on any
non-dict value Python raises `AttributeError`. -/
def jget : JVal → String → JVal → Except PyErr JVal
  | .obj fields, key, dflt => .ok ((fields.lookup key).getD dflt)
  | _, _, _ => .error (.otherError "AttributeError: object has no attribute get")

/-- `', '.join(receipt_ids)`: every element must be a string. -/
def joinComma : JVal → Except PyErr String
  | .arr l => do
      let ss ← l.mapM (fun v => match v with
        | .str s => Except.ok s
        | _ => Except.error (.otherError "TypeError: sequence item: expected str instance"))
      pure (String.intercalate ", " ss)
  | _ => .error (.otherError "TypeError: can only join an iterable")

/-- Query parameters contributed by one optional filter of `list_expenses`:
the key is added only when the argument is supplied and truthy. -/
def optParam (key : String) (v : Option String) : List (String × JVal) :=
  match v with
  | some s => if s == "" then [] else [(key, .str s)]
  | none => []

/-- The query parameters built by `list_expenses` (src/server.py:105-114):
`params = {"limit": min(limit, 100)}` followed by the four truthiness-guarded
filter insertions, in source order. -/
def listExpensesParams (status expense_type from_date to_date : Option String)
    (limit : Int) : List (String × JVal) :=
  [("limit", JVal.num (min limit 100))]
    ++ optParam "status" status
    ++ optParam "type" expense_type
    ++ optParam "performedAtFrom" from_date
    ++ optParam "performedAtTo" to_date

/-- The update payload built by `update_expense` (src/server.py:246-253):
each field is included exactly when the argument `is not None`, with the
key renaming account_id → accountId and tax_code_id → taxCodeId. -/
def updateData (note account_id tax_code_id : Option String) :
    List (String × JVal) :=
  (match note with | some s => [("note", JVal.str s)] | none => [])
    ++ (match account_id with | some s => [("accountId", JVal.str s)] | none => [])
    ++ (match tax_code_id with | some s => [("taxCodeId", JVal.str s)] | none => [])

/-- One expense block of the `list_expenses` summary (src/server.py:128-143). -/
def renderExpenseBlock (expense : JVal) : Except PyErr String := do
  let expense_id ← jget expense "id" (.str "N/A")
  let performed_at ← jget expense "performedAt" (.str "N/A")
  let amount ← jget expense "amountOriginal" (.obj [])
  let value ← jget amount "value" (.num 0)
  let currency ← jget amount "currency" (.str "N/A")
  let note ← jget expense "note" (.str "No note")
  let exp_type ← jget expense "type" (.str "N/A")
  let exp_status ← jget expense "status" (.str "N/A")
  pure ("- ID: " ++ pyStr expense_id ++ "\n"
    ++ "  Date: " ++ pyStr performed_at ++ "\n"
    ++ "  Amount: " ++ pyStr value ++ " " ++ pyStr currency ++ "\n"
    ++ "  Type: " ++ pyStr exp_type ++ "\n"
    ++ "  Status: " ++ pyStr exp_status ++ "\n"
    ++ "  Note: " ++ pyStr note ++ "\n\n")

/-- The response formatting of `list_expenses` (src/server.py:119-145):
take `result.get("data", [])`, return the no-results literal when it is
falsy, otherwise the count header followed by one block per expense. -/
def renderListExpenses (result : JVal) : Except PyErr String := do
  let expenses ← jget result "data" (.arr [])
  if jtruthy expenses then
    match expenses with
    | .arr l => do
        let blocks ← l.mapM renderExpenseBlock
        pure ("Found " ++ toString l.length ++ " expense(s):\n\n" ++ String.join blocks)
    | _ => Except.error (.otherError "TypeError: object is not iterable")
  else
    pure "No expenses found matching the criteria."

/-- The detail block of `get_expense` (src/server.py:167-211): the Settled
Amount line and the Card Transaction block (and within it the Merchant line)
are guarded by Python truthiness of the respective sub-dict. -/
def renderExpenseDetail (expense : JVal) : Except PyErr String := do
  let eid ← jget expense "id" (.str "N/A")
  let employee_id ← jget expense "employeeId" (.str "N/A")
  let employee_code ← jget expense "employeeCode" (.str "N/A")
  let department_id ← jget expense "departmentId" (.str "N/A")
  let performed_at ← jget expense "performedAt" (.str "N/A")
  let amount_original ← jget expense "amountOriginal" (.obj [])
  let ao_value ← jget amount_original "value" (.num 0)
  let ao_currency ← jget amount_original "currency" (.str "N/A")
  let amount_settled ← jget expense "amountSettled" (.obj [])
  let settledLine ←
    if jtruthy amount_settled then do
      let as_value ← jget amount_settled "value" (.num 0)
      let as_currency ← jget amount_settled "currency" (.str "N/A")
      pure ("Settled Amount: " ++ pyStr as_value ++ " " ++ pyStr as_currency ++ "\n")
    else
      pure ""
  let note ← jget expense "note" (.str "No note")
  let exp_type ← jget expense "type" (.str "N/A")
  let exp_status ← jget expense "status" (.str "N/A")
  let account_id ← jget expense "accountId" (.str "N/A")
  let tax_code_id ← jget expense "taxCodeId" (.str "N/A")
  let receipt_ids ← jget expense "receiptIds" (.arr [])
  let receiptsLine ←
    if jtruthy receipt_ids then joinComma receipt_ids else pure "None"
  let card_transaction ← jget expense "cardTransaction" (.obj [])
  let cardBlock ←
    if jtruthy card_transaction then do
      let ct_state ← jget card_transaction "state" (.str "N/A")
      let ct_authorized ← jget card_transaction "authorizedAt" (.str "N/A")
      let ct_settled ← jget card_transaction "settledAt" (.str "N/A")
      let merchant ← jget card_transaction "merchant" (.obj [])
      let merchantLine ←
        if jtruthy merchant then do
          let m_name ← jget merchant "name" (.str "N/A")
          let m_id ← jget merchant "id" (.str "N/A")
          pure ("  Merchant: " ++ pyStr m_name ++ " (ID: " ++ pyStr m_id ++ ")\n")
        else
          pure ""
      pure ("\nCard Transaction:\n"
        ++ "  State: " ++ pyStr ct_state ++ "\n"
        ++ "  Authorized At: " ++ pyStr ct_authorized ++ "\n"
        ++ "  Settled At: " ++ pyStr ct_settled ++ "\n"
        ++ merchantLine)
    else
      pure ""
  let created_at ← jget expense "createdAt" (.str "N/A")
  let updated_at ← jget expense "updatedAt" (.str "N/A")
  pure ("Expense Details:\n\n"
    ++ "ID: " ++ pyStr eid ++ "\n"
    ++ "Employee ID: " ++ pyStr employee_id ++ "\n"
    ++ "Employee Code: " ++ pyStr employee_code ++ "\n"
    ++ "Department ID: " ++ pyStr department_id ++ "\n"
    ++ "Performed At: " ++ pyStr performed_at ++ "\n"
    ++ "Original Amount: " ++ pyStr ao_value ++ " " ++ pyStr ao_currency ++ "\n"
    ++ settledLine
    ++ "Note: " ++ pyStr note ++ "\n"
    ++ "Type: " ++ pyStr exp_type ++ "\n"
    ++ "Status: " ++ pyStr exp_status ++ "\n"
    ++ "Account ID: " ++ pyStr account_id ++ "\n"
    ++ "Tax Code ID: " ++ pyStr tax_code_id ++ "\n"
    ++ "Receipt IDs: " ++ receiptsLine ++ "\n"
    ++ cardBlock
    ++ "\nCreated At: " ++ pyStr created_at ++ "\n"
    ++ "Updated At: " ++ pyStr updated_at ++ "\n")

/-- One receipt block of `get_expense_receipts` (src/server.py:293-305). -/
def renderReceiptBlock (receipt : JVal) : Except PyErr String := do
  let receipt_id ← jget receipt "id" (.str "N/A")
  let name ← jget receipt "name" (.str "N/A")
  let mime_type ← jget receipt "mimeType" (.str "N/A")
  let size ← jget receipt "size" (.num 0)
  let url ← jget receipt "url" (.str "N/A")
  pure ("- Receipt ID: " ++ pyStr receipt_id ++ "\n"
    ++ "  Name: " ++ pyStr name ++ "\n"
    ++ "  Type: " ++ pyStr mime_type ++ "\n"
    ++ "  Size: " ++ pyStr size ++ " KB\n"
    ++ "  Download URL: " ++ pyStr url ++ "\n"
    ++ "  (URL valid for 15 hours)\n\n")

/-- The response formatting of `get_expense_receipts` (src/server.py:288-307):
a falsy response yields the no-receipts message, otherwise one block per
receipt under the header. -/
def renderReceipts (expense_id : String) (receipts : JVal) : Except PyErr String :=
  if jtruthy receipts then
    match receipts with
    | .arr l => do
        let blocks ← l.mapM renderReceiptBlock
        pure ("Receipts for expense " ++ expense_id ++ ":\n\n" ++ String.join blocks)
    | _ => Except.error (.otherError "TypeError: object is not iterable")
  else
    .ok ("No receipts found for expense " ++ expense_id)

/-- The detail block of `get_expense_receipt` (src/server.py:335-343). -/
def renderReceiptDetail (receipt : JVal) : Except PyErr String := do
  let receipt_id ← jget receipt "id" (.str "N/A")
  let name ← jget receipt "name" (.str "N/A")
  let mime_type ← jget receipt "mimeType" (.str "N/A")
  let size ← jget receipt "size" (.num 0)
  let url ← jget receipt "url" (.str "N/A")
  pure ("Receipt Details:\n\n"
    ++ "ID: " ++ pyStr receipt_id ++ "\n"
    ++ "Name: " ++ pyStr name ++ "\n"
    ++ "MIME Type: " ++ pyStr mime_type ++ "\n"
    ++ "Size: " ++ pyStr size ++ " KB\n"
    ++ "Download URL: " ++ pyStr url ++ "\n"
    ++ "(URL valid for 15 hours)\n")

/-- The error raised by `get_client` when `PLEO_API_KEY` is falsy
(src/server.py:73-77); `str(e)` of the ValueError is its message. -/
def missingKeyMsg : String := "PLEO_API_KEY environment variable is not set"

/-- The outcome of one HTTP call: either the parsed JSON body, or the
exception raised by `raise_for_status`, the transport, or `response.json()`. -/
def Net : Type := Request → Except PyErr JVal

/-- The try-block of `list_expenses` (src/server.py:101-145): build the
client (raising ValueError when the key is falsy), build the params, issue
`GET /expenses`, format the response. The second component records the HTTP
requests issued. -/
def listExpensesBody (cfg : Config) (status expense_type from_date to_date : Option String)
    (limit : Int) (net : Net) : Except PyErr String × List Request :=
  if keyTruthy cfg.apiKey then
    let req := Request.get "/expenses" (listExpensesParams status expense_type from_date to_date limit)
    match net req with
    | .ok result => (renderListExpenses result, [req])
    | .error e => (.error e, [req])
  else
    (.error (.valueError missingKeyMsg), [])

/-- The try-block of `get_expense` (src/server.py:163-211). -/
def getExpenseBody (cfg : Config) (expense_id : String) (net : Net) :
    Except PyErr String × List Request :=
  if keyTruthy cfg.apiKey then
    let req := Request.get ("/expenses/" ++ expense_id) []
    match net req with
    | .ok expense => (renderExpenseDetail expense, [req])
    | .error e => (.error e, [req])
  else
    (.error (.valueError missingKeyMsg), [])

/-- The try-block of `update_expense` (src/server.py:242-261): the client is
built first, then the payload; an empty payload returns the validation
message before any request; otherwise `PUT /expenses/{id}` is issued and the
response body is ignored. -/
def updateExpenseBody (cfg : Config) (expense_id : String)
    (note account_id tax_code_id : Option String) (net : Net) :
    Except PyErr String × List Request :=
  if keyTruthy cfg.apiKey then
    let update_data := updateData note account_id tax_code_id
    if update_data.isEmpty then
      (.ok "Error: No update fields provided. Please specify at least one field to update.", [])
    else
      let req := Request.put ("/expenses/" ++ expense_id) update_data
      match net req with
      | .ok _ => (.ok ("Successfully updated expense " ++ expense_id), [req])
      | .error e => (.error e, [req])
  else
    (.error (.valueError missingKeyMsg), [])

/-- The try-block of `get_expense_receipts` (src/server.py:284-307). -/
def getExpenseReceiptsBody (cfg : Config) (expense_id : String) (net : Net) :
    Except PyErr String × List Request :=
  if keyTruthy cfg.apiKey then
    let req := Request.get ("/expenses/" ++ expense_id ++ "/receipts") []
    match net req with
    | .ok receipts => (renderReceipts expense_id receipts, [req])
    | .error e => (.error e, [req])
  else
    (.error (.valueError missingKeyMsg), [])

/-- The try-block of `get_expense_receipt` (src/server.py:331-343). -/
def getExpenseReceiptBody (cfg : Config) (expense_id receipt_id : String) (net : Net) :
    Except PyErr String × List Request :=
  if keyTruthy cfg.apiKey then
    let req := Request.get ("/expenses/" ++ expense_id ++ "/receipts/" ++ receipt_id) []
    match net req with
    | .ok receipt => (renderReceiptDetail receipt, [req])
    | .error e => (.error e, [req])
  else
    (.error (.valueError missingKeyMsg), [])

/-- The single `except Exception` clause of `list_expenses`
(src/server.py:147-149): every exception becomes `"Error: " + str(e)`. -/
def catchAllExceptions (x : Except PyErr String × List Request) :
    Except PyErr String × List Request :=
  match x with
  | (.ok s, reqs) => (.ok s, reqs)
  | (.error (.httpStatusError _ msg), reqs) => (.ok ("Error: " ++ msg), reqs)
  | (.error (.valueError msg), reqs) => (.ok ("Error: " ++ msg), reqs)
  | (.error (.otherError msg), reqs) => (.ok ("Error: " ++ msg), reqs)

/-- The `except httpx.HTTPStatusError` / `except Exception` chain shared by
the four non-list handlers (e.g. src/server.py:213-220): a 404 status yields
the handler-specific not-found message, any other exception becomes
`"Error: " + str(e)`. -/
def catchWithNotFound (notFoundMsg : String) (x : Except PyErr String × List Request) :
    Except PyErr String × List Request :=
  match x with
  | (.ok s, reqs) => (.ok s, reqs)
  | (.error (.httpStatusError code msg), reqs) =>
      (.ok (if code == 404 then notFoundMsg else "Error: " ++ msg), reqs)
  | (.error (.valueError msg), reqs) => (.ok ("Error: " ++ msg), reqs)
  | (.error (.otherError msg), reqs) => (.ok ("Error: " ++ msg), reqs)

/-- Tool handler `list_expenses` (src/server.py:80-149). -/
def list_expenses (cfg : Config) (status expense_type from_date to_date : Option String)
    (limit : Int) (net : Net) : Except PyErr String × List Request :=
  catchAllExceptions (listExpensesBody cfg status expense_type from_date to_date limit net)

/-- Tool handler `get_expense` (src/server.py:152-220). -/
def get_expense (cfg : Config) (expense_id : String) (net : Net) :
    Except PyErr String × List Request :=
  catchWithNotFound ("Error: Expense with ID " ++ expense_id ++ " not found")
    (getExpenseBody cfg expense_id net)

/-- Tool handler `update_expense` (src/server.py:223-270). -/
def update_expense (cfg : Config) (expense_id : String)
    (note account_id tax_code_id : Option String) (net : Net) :
    Except PyErr String × List Request :=
  catchWithNotFound ("Error: Expense with ID " ++ expense_id ++ " not found")
    (updateExpenseBody cfg expense_id note account_id tax_code_id net)

/-- Tool handler `get_expense_receipts` (src/server.py:273-316). -/
def get_expense_receipts (cfg : Config) (expense_id : String) (net : Net) :
    Except PyErr String × List Request :=
  catchWithNotFound ("Error: Expense with ID " ++ expense_id ++ " not found")
    (getExpenseReceiptsBody cfg expense_id net)

/-- Tool handler `get_expense_receipt` (src/server.py:319-352). -/
def get_expense_receipt (cfg : Config) (expense_id receipt_id : String) (net : Net) :
    Except PyErr String × List Request :=
  catchWithNotFound
    ("Error: Receipt with ID " ++ receipt_id ++ " not found for expense " ++ expense_id)
    (getExpenseReceiptBody cfg expense_id receipt_id net)

theorem catchAllExceptions_fst_ok (x : Except PyErr String × List Request) :
    ∃ s, (catchAllExceptions x).fst = Except.ok s := by
  rcases x with ⟨r, reqs⟩
  rcases r with e | s
  · rcases e with ⟨c, m⟩ | m | m <;> exact ⟨_, rfl⟩
  · exact ⟨s, rfl⟩

theorem catchWithNotFound_fst_ok (m : String) (x : Except PyErr String × List Request) :
    ∃ s, (catchWithNotFound m x).fst = Except.ok s := by
  rcases x with ⟨r, reqs⟩
  rcases r with e | s
  · rcases e with ⟨c, msg⟩ | msg | msg <;> exact ⟨_, rfl⟩
  · exact ⟨s, rfl⟩

theorem catchAllExceptions_snd (x : Except PyErr String × List Request) :
    (catchAllExceptions x).snd = x.snd := by
  rcases x with ⟨r, reqs⟩
  rcases r with e | s
  · rcases e with ⟨c, m⟩ | m | m <;> rfl
  · rfl

theorem catchWithNotFound_snd (m : String) (x : Except PyErr String × List Request) :
    (catchWithNotFound m x).snd = x.snd := by
  rcases x with ⟨r, reqs⟩
  rcases r with e | s
  · rcases e with ⟨c, msg⟩ | msg | msg <;> rfl
  · rfl

theorem listExpensesBody_snd (cfg : Config)
    (status expense_type from_date to_date : Option String) (limit : Int) (net : Net)
    (hkey : keyTruthy cfg.apiKey = true) :
    (listExpensesBody cfg status expense_type from_date to_date limit net).snd
      = [Request.get "/expenses" (listExpensesParams status expense_type from_date to_date limit)] := by
  unfold listExpensesBody
  simp only [hkey, if_true]
  rcases h : net (Request.get "/expenses" (listExpensesParams status expense_type from_date to_date limit))
    with e | v <;> simp [h]

/-- C1: every one of the five tool handlers catches every failure arising
during the call (configuration error, HTTP status error, or any other
exception) and returns a string; no invocation propagates a raised fault
(an `Except.error` result) to the caller. -/
theorem c1_handlers_never_raise (cfg : Config) (net : Net)
    (status expense_type from_date to_date : Option String) (limit : Int)
    (expense_id receipt_id : String) (note account_id tax_code_id : Option String) :
    (∃ s, (list_expenses cfg status expense_type from_date to_date limit net).fst = Except.ok s)
      ∧ (∃ s, (get_expense cfg expense_id net).fst = Except.ok s)
      ∧ (∃ s, (update_expense cfg expense_id note account_id tax_code_id net).fst = Except.ok s)
      ∧ (∃ s, (get_expense_receipts cfg expense_id net).fst = Except.ok s)
      ∧ (∃ s, (get_expense_receipt cfg expense_id receipt_id net).fst = Except.ok s) :=
  ⟨catchAllExceptions_fst_ok _, catchWithNotFound_fst_ok _ _, catchWithNotFound_fst_ok _ _,
    catchWithNotFound_fst_ok _ _, catchWithNotFound_fst_ok _ _⟩

/-- C7: when the API key is absent from the configuration, every one of the
five handlers returns the configuration error text and issues no HTTP
request. -/
theorem c7_missing_key_config_error (net : Net)
    (status expense_type from_date to_date : Option String) (limit : Int)
    (expense_id receipt_id : String) (note account_id tax_code_id : Option String) :
    list_expenses ⟨none⟩ status expense_type from_date to_date limit net
        = (Except.ok ("Error: " ++ missingKeyMsg), [])
      ∧ get_expense ⟨none⟩ expense_id net = (Except.ok ("Error: " ++ missingKeyMsg), [])
      ∧ update_expense ⟨none⟩ expense_id note account_id tax_code_id net
        = (Except.ok ("Error: " ++ missingKeyMsg), [])
      ∧ get_expense_receipts ⟨none⟩ expense_id net = (Except.ok ("Error: " ++ missingKeyMsg), [])
      ∧ get_expense_receipt ⟨none⟩ expense_id receipt_id net
        = (Except.ok ("Error: " ++ missingKeyMsg), []) :=
  ⟨rfl, rfl, rfl, rfl, rfl⟩

/-- C2: for every integer limit passed to list_expenses, the transmitted
`limit` query parameter is `min limit 100`: exactly 100 when the input
exceeds 100, and the input unchanged (zero and negatives included) when the
input is at most 100. -/
theorem c2_limit_clamped (cfg : Config) (net : Net)
    (status expense_type from_date to_date : Option String) (limit : Int)
    (hkey : keyTruthy cfg.apiKey = true) :
    (list_expenses cfg status expense_type from_date to_date limit net).snd
        = [Request.get "/expenses" (listExpensesParams status expense_type from_date to_date limit)]
      ∧ List.lookup "limit" (listExpensesParams status expense_type from_date to_date limit)
        = some (JVal.num (min limit 100))
      ∧ (limit > 100 → min limit 100 = 100)
      ∧ (limit ≤ 100 → min limit 100 = limit) := by
  refine ⟨?_, ?_, ?_, ?_⟩
  · unfold list_expenses
    rw [catchAllExceptions_snd,
      listExpensesBody_snd cfg status expense_type from_date to_date limit net hkey]
  · simp [listExpensesParams, List.lookup_cons]
  · intro h; omega
  · intro h; omega

theorem c2_witness :
    (list_expenses ⟨some "k"⟩ none none none none 150 (fun _ => Except.ok JVal.null)).snd
        = [Request.get "/expenses" (listExpensesParams none none none none 150)]
      ∧ List.lookup "limit" (listExpensesParams none none none none 150)
        = some (JVal.num (min 150 100))
      ∧ min (150 : Int) 100 = 100 :=
  ⟨(c2_limit_clamped ⟨some "k"⟩ (fun _ => Except.ok JVal.null) none none none none 150 (by decide)).1,
   (c2_limit_clamped ⟨some "k"⟩ (fun _ => Except.ok JVal.null) none none none none 150 (by decide)).2.1,
   (c2_limit_clamped ⟨some "k"⟩ (fun _ => Except.ok JVal.null) none none none none 150 (by decide)).2.2.1
     (by decide)⟩

/-- C4 counterexample: with the API key missing and no optional field
supplied, update_expense returns the configuration error text, which is not
the validation error message the claim promises for every such call (the
key check in `get_client` runs before the empty-payload validation). -/
theorem c4_counterexample :
    (update_expense ⟨none⟩ "e1" none none none (fun _ => Except.ok JVal.null)).fst
        = Except.ok "Error: PLEO_API_KEY environment variable is not set"
      ∧ "Error: PLEO_API_KEY environment variable is not set"
        ≠ "Error: No update fields provided. Please specify at least one field to update." :=
  ⟨rfl, by decide⟩

/-- C4 amended: update_expense with no optional field supplied makes zero
network calls in every configuration, and returns the validation error
message whenever the API key is configured (when the key is missing the
configuration error message is returned instead, still with no network
call). -/
theorem c4_no_fields_short_circuit (cfg : Config) (net : Net) (expense_id : String) :
    (update_expense cfg expense_id none none none net).snd = []
      ∧ (keyTruthy cfg.apiKey = true →
          (update_expense cfg expense_id none none none net).fst
            = Except.ok "Error: No update fields provided. Please specify at least one field to update.") := by
  constructor
  · unfold update_expense
    rw [catchWithNotFound_snd]
    unfold updateExpenseBody
    cases h : keyTruthy cfg.apiKey <;> simp [h, updateData]
  · intro hkey
    unfold update_expense updateExpenseBody
    simp only [hkey, if_true]
    rfl

theorem c4_no_fields_short_circuit_witness :
    (update_expense ⟨some "k"⟩ "e1" none none none (fun _ => Except.ok JVal.null)).snd = []
      ∧ (update_expense ⟨some "k"⟩ "e1" none none none (fun _ => Except.ok JVal.null)).fst
        = Except.ok "Error: No update fields provided. Please specify at least one field to update." :=
  ⟨(c4_no_fields_short_circuit ⟨some "k"⟩ (fun _ => Except.ok JVal.null) "e1").1,
   (c4_no_fields_short_circuit ⟨some "k"⟩ (fun _ => Except.ok JVal.null) "e1").2 (by decide)⟩

/-- C5 counterexample: list_expenses has no HTTPStatusError clause, so an
upstream 404 is rendered through the generic catch-all as
`"Error: " + str(e)` — the raw-message rendering, not a resource-specific
not-found message, refuting the claim for this handler. -/
theorem c5_counterexample :
    (list_expenses ⟨some "k"⟩ none none none none 50
        (fun _ => Except.error (.httpStatusError 404 "Client error 404 Not Found for url"))).fst
      = Except.ok ("Error: " ++ "Client error 404 Not Found for url") :=
  rfl

/-- C5 amended: every handler except list_expenses classifies an upstream
404 distinctly, answering a resource-specific not-found message that does
not depend on the raw error text; list_expenses alone renders a 404 through
the generic stringified-error path. -/
theorem c5_not_found_per_handler (cfg : Config)
    (expense_id receipt_id note msg : String) (hkey : keyTruthy cfg.apiKey = true) :
    (get_expense cfg expense_id (fun _ => Except.error (.httpStatusError 404 msg))).fst
        = Except.ok ("Error: Expense with ID " ++ expense_id ++ " not found")
      ∧ (update_expense cfg expense_id (some note) none none
          (fun _ => Except.error (.httpStatusError 404 msg))).fst
        = Except.ok ("Error: Expense with ID " ++ expense_id ++ " not found")
      ∧ (get_expense_receipts cfg expense_id (fun _ => Except.error (.httpStatusError 404 msg))).fst
        = Except.ok ("Error: Expense with ID " ++ expense_id ++ " not found")
      ∧ (get_expense_receipt cfg expense_id receipt_id
          (fun _ => Except.error (.httpStatusError 404 msg))).fst
        = Except.ok ("Error: Receipt with ID " ++ receipt_id ++ " not found for expense " ++ expense_id)
      ∧ (list_expenses cfg none none none none 50
          (fun _ => Except.error (.httpStatusError 404 msg))).fst
        = Except.ok ("Error: " ++ msg) := by
  refine ⟨?_, ?_, ?_, ?_, ?_⟩
  · unfold get_expense getExpenseBody
    simp only [hkey, if_true]
    rfl
  · unfold update_expense updateExpenseBody
    simp only [hkey, if_true]
    rfl
  · unfold get_expense_receipts getExpenseReceiptsBody
    simp only [hkey, if_true]
    rfl
  · unfold get_expense_receipt getExpenseReceiptBody
    simp only [hkey, if_true]
    rfl
  · unfold list_expenses listExpensesBody
    simp only [hkey, if_true]
    rfl

theorem c5_not_found_per_handler_witness :
    (get_expense ⟨some "k"⟩ "e9" (fun _ => Except.error (.httpStatusError 404 "raw"))).fst
        = Except.ok ("Error: Expense with ID " ++ "e9" ++ " not found")
      ∧ (update_expense ⟨some "k"⟩ "e9" (some "n") none none
          (fun _ => Except.error (.httpStatusError 404 "raw"))).fst
        = Except.ok ("Error: Expense with ID " ++ "e9" ++ " not found")
      ∧ (get_expense_receipts ⟨some "k"⟩ "e9" (fun _ => Except.error (.httpStatusError 404 "raw"))).fst
        = Except.ok ("Error: Expense with ID " ++ "e9" ++ " not found")
      ∧ (get_expense_receipt ⟨some "k"⟩ "e9" "r1"
          (fun _ => Except.error (.httpStatusError 404 "raw"))).fst
        = Except.ok ("Error: Receipt with ID " ++ "r1" ++ " not found for expense " ++ "e9")
      ∧ (list_expenses ⟨some "k"⟩ none none none none 50
          (fun _ => Except.error (.httpStatusError 404 "raw"))).fst
        = Except.ok ("Error: " ++ "raw") :=
  c5_not_found_per_handler ⟨some "k"⟩ "e9" "r1" "n" "raw" (by decide)

/-- C6: for every expense_id, a 404 from the upstream call in get_expense
yields the caught (never raised) not-found message, and that message
contains the literal expense id requested. -/
theorem c6_get_expense_404_names_id (cfg : Config) (expense_id msg : String)
    (hkey : keyTruthy cfg.apiKey = true) :
    (get_expense cfg expense_id (fun _ => Except.error (.httpStatusError 404 msg))).fst
        = Except.ok ("Error: Expense with ID " ++ expense_id ++ " not found")
      ∧ ∃ pre post : String,
          "Error: Expense with ID " ++ expense_id ++ " not found" = pre ++ expense_id ++ post := by
  constructor
  · unfold get_expense getExpenseBody
    simp only [hkey, if_true]
    rfl
  · exact ⟨"Error: Expense with ID ", " not found", rfl⟩

theorem c6_get_expense_404_names_id_witness :
    (get_expense ⟨some "k"⟩ "abc-123" (fun _ => Except.error (.httpStatusError 404 "boom"))).fst
        = Except.ok ("Error: Expense with ID " ++ "abc-123" ++ " not found")
      ∧ ∃ pre post : String,
          "Error: Expense with ID " ++ "abc-123" ++ " not found" = pre ++ "abc-123" ++ post :=
  c6_get_expense_404_names_id ⟨some "k"⟩ "abc-123" "boom" (by decide)

theorem lookup_append (k : String) (l1 l2 : List (String × JVal)) :
    List.lookup k (l1 ++ l2) = (List.lookup k l1).or (List.lookup k l2) := by
  induction l1 with
  | nil => simp
  | cons p l ih =>
    rcases p with ⟨a, b⟩
    cases hk : k == a <;> simp [List.lookup_cons, hk, ih]

theorem lookup_optParam_ne (k key : String) (v : Option String) (h : (k == key) = false) :
    List.lookup k (optParam key v) = none := by
  rcases v with _ | s
  · rfl
  · by_cases hs : (s == "") = true <;> simp [optParam, hs, List.lookup_cons, h]

theorem lookup_optParam_self (key : String) (v : Option String) :
    List.lookup key (optParam key v) = (if optTruthy v then v.map JVal.str else none) := by
  rcases v with _ | s
  · rfl
  · unfold optParam optTruthy
    by_cases hs : (s == "") = true <;> simp [hs, List.lookup_cons]

theorem mem_optParam (p : String × JVal) (key : String) (v : Option String)
    (h : p ∈ optParam key v) : p.1 = key := by
  rcases v with _ | s
  · simp [optParam] at h
  · by_cases hs : (s == "") = true
    · simp [optParam, hs] at h
    · simp [optParam, hs] at h
      rw [h]

/-- C3: the PUT payload of update_expense holds exactly the subset of
{note, accountId, taxCodeId} whose inputs were supplied (an omitted input
contributes no key, an empty-string input contributes its key), with the
renamings account_id → accountId and tax_code_id → taxCodeId, and it is
exactly what the issued PUT request carries. -/
theorem c3_update_payload_exact (cfg : Config) (net : Net) (expense_id : String)
    (note account_id tax_code_id : Option String) :
    List.lookup "note" (updateData note account_id tax_code_id) = note.map JVal.str
      ∧ List.lookup "accountId" (updateData note account_id tax_code_id)
        = account_id.map JVal.str
      ∧ List.lookup "taxCodeId" (updateData note account_id tax_code_id)
        = tax_code_id.map JVal.str
      ∧ (∀ p ∈ updateData note account_id tax_code_id,
          p.1 = "note" ∨ p.1 = "accountId" ∨ p.1 = "taxCodeId")
      ∧ (keyTruthy cfg.apiKey = true → updateData note account_id tax_code_id ≠ [] →
          (update_expense cfg expense_id note account_id tax_code_id net).snd
            = [Request.put ("/expenses/" ++ expense_id)
                (updateData note account_id tax_code_id)]) := by
  refine ⟨?_, ?_, ?_, ?_, ?_⟩
  · rcases note with _ | n <;> rcases account_id with _ | a <;> rcases tax_code_id with _ | t <;>
      simp [updateData, List.lookup_cons]
  · rcases note with _ | n <;> rcases account_id with _ | a <;> rcases tax_code_id with _ | t <;>
      simp [updateData, List.lookup_cons]
  · rcases note with _ | n <;> rcases account_id with _ | a <;> rcases tax_code_id with _ | t <;>
      simp [updateData, List.lookup_cons]
  · rcases note with _ | n <;> rcases account_id with _ | a <;> rcases tax_code_id with _ | t <;>
      simp [updateData]
  · intro hkey hne
    unfold update_expense
    rw [catchWithNotFound_snd]
    unfold updateExpenseBody
    simp only [hkey, if_true]
    have hie : (updateData note account_id tax_code_id).isEmpty = false := by
      rcases h : updateData note account_id tax_code_id with _ | ⟨p, l⟩
      · exact absurd h hne
      · rfl
    simp only [hie, Bool.false_eq_true, if_false]
    rcases hn : net (Request.put ("/expenses/" ++ expense_id)
        (updateData note account_id tax_code_id)) with e | v <;> simp [hn]

theorem c3_update_payload_exact_witness :
    List.lookup "note" (updateData (some "") none (some "t1")) = (some "").map JVal.str
      ∧ List.lookup "accountId" (updateData (some "") none (some "t1"))
        = (none : Option String).map JVal.str
      ∧ List.lookup "taxCodeId" (updateData (some "") none (some "t1"))
        = (some "t1").map JVal.str
      ∧ (∀ p ∈ updateData (some "") none (some "t1"),
          p.1 = "note" ∨ p.1 = "accountId" ∨ p.1 = "taxCodeId")
      ∧ (update_expense ⟨some "k"⟩ "e7" (some "") none (some "t1")
          (fun _ => Except.ok JVal.null)).snd
        = [Request.put ("/expenses/" ++ "e7") (updateData (some "") none (some "t1"))] :=
  ⟨(c3_update_payload_exact ⟨some "k"⟩ (fun _ => Except.ok JVal.null) "e7"
      (some "") none (some "t1")).1,
   (c3_update_payload_exact ⟨some "k"⟩ (fun _ => Except.ok JVal.null) "e7"
      (some "") none (some "t1")).2.1,
   (c3_update_payload_exact ⟨some "k"⟩ (fun _ => Except.ok JVal.null) "e7"
      (some "") none (some "t1")).2.2.1,
   (c3_update_payload_exact ⟨some "k"⟩ (fun _ => Except.ok JVal.null) "e7"
      (some "") none (some "t1")).2.2.2.1,
   (c3_update_payload_exact ⟨some "k"⟩ (fun _ => Except.ok JVal.null) "e7"
      (some "") none (some "t1")).2.2.2.2 (by decide) (by simp [updateData])⟩

/-- C8 counterexample: a status argument supplied as the empty string is a
supplied argument, yet the transmitted query of list_expenses carries no
"status" key (the code guards insertion by truthiness, so the claimed
if-and-only-if with suppliedness fails). -/
theorem c8_counterexample :
    (list_expenses ⟨some "k"⟩ (some "") none none none 50 (fun _ => Except.ok JVal.null)).snd
        = [Request.get "/expenses" [("limit", JVal.num 50)]]
      ∧ List.lookup "status" [(("limit" : String), JVal.num 50)] = none
      ∧ some "" ≠ (none : Option String) :=
  ⟨rfl, rfl, by decide⟩

/-- C8 amended: each filter key of the list_expenses query ("status",
"type", "performedAtFrom", "performedAtTo") is present if and only if the
corresponding argument was supplied with a truthy (non-empty) string, in
which case it carries that string; no key beyond these four and "limit" is
ever added; and the built parameters are exactly what the issued GET
request carries. -/
theorem c8_filter_params (cfg : Config) (net : Net)
    (status expense_type from_date to_date : Option String) (limit : Int)
    (hkey : keyTruthy cfg.apiKey = true) :
    (list_expenses cfg status expense_type from_date to_date limit net).snd
        = [Request.get "/expenses" (listExpensesParams status expense_type from_date to_date limit)]
      ∧ List.lookup "status" (listExpensesParams status expense_type from_date to_date limit)
        = (if optTruthy status then status.map JVal.str else none)
      ∧ List.lookup "type" (listExpensesParams status expense_type from_date to_date limit)
        = (if optTruthy expense_type then expense_type.map JVal.str else none)
      ∧ List.lookup "performedAtFrom" (listExpensesParams status expense_type from_date to_date limit)
        = (if optTruthy from_date then from_date.map JVal.str else none)
      ∧ List.lookup "performedAtTo" (listExpensesParams status expense_type from_date to_date limit)
        = (if optTruthy to_date then to_date.map JVal.str else none)
      ∧ ∀ p ∈ listExpensesParams status expense_type from_date to_date limit,
          p.1 = "limit" ∨ p.1 = "status" ∨ p.1 = "type"
            ∨ p.1 = "performedAtFrom" ∨ p.1 = "performedAtTo" := by
  refine ⟨?_, ?_, ?_, ?_, ?_, ?_⟩
  · unfold list_expenses
    rw [catchAllExceptions_snd,
      listExpensesBody_snd cfg status expense_type from_date to_date limit net hkey]
  · simp [listExpensesParams, List.lookup_cons, lookup_append,
      lookup_optParam_self, lookup_optParam_ne]
  · simp [listExpensesParams, List.lookup_cons, lookup_append,
      lookup_optParam_self, lookup_optParam_ne]
  · simp [listExpensesParams, List.lookup_cons, lookup_append,
      lookup_optParam_self, lookup_optParam_ne]
  · simp [listExpensesParams, List.lookup_cons, lookup_append,
      lookup_optParam_self, lookup_optParam_ne]
  · intro p hp
    unfold listExpensesParams at hp
    simp only [List.singleton_append, List.mem_cons, List.mem_append] at hp
    rcases hp with (((h | h) | h) | h) | h
    · rw [h]
      tauto
    · exact Or.inr (Or.inl (mem_optParam p "status" status h))
    · exact Or.inr (Or.inr (Or.inl (mem_optParam p "type" expense_type h)))
    · exact Or.inr (Or.inr (Or.inr (Or.inl (mem_optParam p "performedAtFrom" from_date h))))
    · exact Or.inr (Or.inr (Or.inr (Or.inr (mem_optParam p "performedAtTo" to_date h))))

theorem c8_filter_params_witness :
    (list_expenses ⟨some "k"⟩ (some "QUEUED") none none (some "") 5
        (fun _ => Except.ok JVal.null)).snd
        = [Request.get "/expenses" (listExpensesParams (some "QUEUED") none none (some "") 5)]
      ∧ List.lookup "status" (listExpensesParams (some "QUEUED") none none (some "") 5)
        = (if optTruthy (some "QUEUED") then (some "QUEUED").map JVal.str else none)
      ∧ List.lookup "type" (listExpensesParams (some "QUEUED") none none (some "") 5)
        = (if optTruthy (none : Option String) then (none : Option String).map JVal.str else none)
      ∧ List.lookup "performedAtFrom" (listExpensesParams (some "QUEUED") none none (some "") 5)
        = (if optTruthy (none : Option String) then (none : Option String).map JVal.str else none)
      ∧ List.lookup "performedAtTo" (listExpensesParams (some "QUEUED") none none (some "") 5)
        = (if optTruthy (some "") then (some "").map JVal.str else none)
      ∧ ∀ p ∈ listExpensesParams (some "QUEUED") none none (some "") 5,
          p.1 = "limit" ∨ p.1 = "status" ∨ p.1 = "type"
            ∨ p.1 = "performedAtFrom" ∨ p.1 = "performedAtTo" :=
  c8_filter_params ⟨some "k"⟩ (fun _ => Except.ok JVal.null)
    (some "QUEUED") none none (some "") 5 (by decide)

theorem jget_obj (l : List (String × JVal)) (k : String) (d : JVal) :
    jget (JVal.obj l) k d = Except.ok ((l.lookup k).getD d) := rfl

theorem renderListExpenses_empty (fields : List (String × JVal))
    (hdata : List.lookup "data" fields = none
      ∨ List.lookup "data" fields = some (JVal.arr [])) :
    renderListExpenses (JVal.obj fields)
      = Except.ok "No expenses found matching the criteria." := by
  rcases hdata with h | h <;> (simp only [renderListExpenses, jget_obj, h]; rfl)

/-- C9: a list_expenses response whose data list is empty, or which lacks
the data field entirely, produces exactly the literal no-results message,
never a count header over zero expense blocks. -/
theorem c9_empty_data_no_results (cfg : Config)
    (status expense_type from_date to_date : Option String) (limit : Int)
    (fields : List (String × JVal)) (hkey : keyTruthy cfg.apiKey = true)
    (hdata : List.lookup "data" fields = none
      ∨ List.lookup "data" fields = some (JVal.arr [])) :
    (list_expenses cfg status expense_type from_date to_date limit
        (fun _ => Except.ok (JVal.obj fields))).fst
      = Except.ok "No expenses found matching the criteria." := by
  unfold list_expenses listExpensesBody
  simp only [hkey, if_true]
  rw [renderListExpenses_empty fields hdata]
  rfl

theorem c9_empty_data_no_results_witness :
    (list_expenses ⟨some "k"⟩ none none none none 50
        (fun _ => Except.ok (JVal.obj [("data", JVal.arr [])]))).fst
      = Except.ok "No expenses found matching the criteria." :=
  c9_empty_data_no_results ⟨some "k"⟩ none none none none 50
    [("data", JVal.arr [])] (by decide) (Or.inr rfl)

theorem renderExpenseDetail_settled_empty (fields : List (String × JVal))
    (h : List.lookup "amountSettled" fields = none) :
    renderExpenseDetail (JVal.obj (("amountSettled", JVal.obj []) :: fields))
      = renderExpenseDetail (JVal.obj fields) := by
  simp only [renderExpenseDetail, jget_obj, List.lookup_cons, h, String.reduceBEq,
    Option.getD_some, Option.getD_none]

theorem renderExpenseDetail_card_empty (fields : List (String × JVal))
    (h : List.lookup "cardTransaction" fields = none) :
    renderExpenseDetail (JVal.obj (("cardTransaction", JVal.obj []) :: fields))
      = renderExpenseDetail (JVal.obj fields) := by
  simp only [renderExpenseDetail, jget_obj, List.lookup_cons, h, String.reduceBEq,
    Option.getD_some, Option.getD_none]

/-- C10: in get_expense, a payload carrying amountSettled = {} renders
identically to one where amountSettled is missing, and a payload carrying
cardTransaction = {} renders identically to one where cardTransaction is
missing: presence is tested by truthiness, and an empty object is falsy. -/
theorem c10_empty_object_like_missing (cfg : Config) (expense_id : String)
    (fields fields2 : List (String × JVal)) (hkey : keyTruthy cfg.apiKey = true)
    (h1 : List.lookup "amountSettled" fields = none)
    (h2 : List.lookup "cardTransaction" fields2 = none) :
    (get_expense cfg expense_id
        (fun _ => Except.ok (JVal.obj (("amountSettled", JVal.obj []) :: fields)))).fst
      = (get_expense cfg expense_id (fun _ => Except.ok (JVal.obj fields))).fst
    ∧ (get_expense cfg expense_id
        (fun _ => Except.ok (JVal.obj (("cardTransaction", JVal.obj []) :: fields2)))).fst
      = (get_expense cfg expense_id (fun _ => Except.ok (JVal.obj fields2))).fst := by
  constructor
  · unfold get_expense getExpenseBody
    simp only [hkey, if_true]
    rw [renderExpenseDetail_settled_empty fields h1]
  · unfold get_expense getExpenseBody
    simp only [hkey, if_true]
    rw [renderExpenseDetail_card_empty fields2 h2]

theorem c10_empty_object_like_missing_witness :
    (get_expense ⟨some "k"⟩ "e1"
        (fun _ => Except.ok (JVal.obj [("amountSettled", JVal.obj []),
          ("note", JVal.str "lunch")]))).fst
      = (get_expense ⟨some "k"⟩ "e1"
          (fun _ => Except.ok (JVal.obj [("note", JVal.str "lunch")]))).fst
    ∧ (get_expense ⟨some "k"⟩ "e1"
        (fun _ => Except.ok (JVal.obj [("cardTransaction", JVal.obj []),
          ("note", JVal.str "lunch")]))).fst
      = (get_expense ⟨some "k"⟩ "e1"
          (fun _ => Except.ok (JVal.obj [("note", JVal.str "lunch")]))).fst :=
  c10_empty_object_like_missing ⟨some "k"⟩ "e1"
    [("note", JVal.str "lunch")] [("note", JVal.str "lunch")] (by decide) rfl rfl

end PleoMcp
